import Mathlib

/-!
Shallow embedding of `src/streamlit_app.py` (financial dashboard).

The script is a single linear render pass: sidebar widgets, three memoized
data-shim functions wrapping the `akshare` provider, and a sequence of render
calls.  We model:

  * provider responses as `Except String` values carried by a `Provider`
    record (a raising provider call is an `Except.error`);
  * tabular data as lists of records with the renamed (English) column names
    the script introduces;
  * the rendered page as a flat list of `RenderItem`s, in emission order;
  * the data-shim invocations performed by a render pass as a list of
    `ProviderCall`s;
  * a render failure (an uncaught Python exception, e.g. `IndexError` from
    `iloc`) as `Except.error` of the whole render;
  * numeric formatting (`round`, `.1f`, …) over `ℚ` with IEEE-style
    round-half-to-even, which is what both `pandas.round` and Python's
    format spec use.

The `st.cache_data` memoization decorator is framework code that is not part
of this repository; it is modelled separately (`cache_ttl_call`) from the
spec's description of the TTL window, with the TTL constants (60 s, 300 s,
300 s) taken from the decorators in the source.
-/

namespace StockApp

/-- Decidable equality of `Except` results, for evaluating the model on
concrete inputs. -/
instance {ε α : Type} [DecidableEq ε] [DecidableEq α] :
    DecidableEq (Except ε α)
  | .error e, .error f =>
    if h : e = f then .isTrue (by rw [h]) else .isFalse (by simp [h])
  | .error _, .ok _ => .isFalse (by simp)
  | .ok _, .error _ => .isFalse (by simp)
  | .ok a, .ok b =>
    if h : a = b then .isTrue (by rw [h]) else .isFalse (by simp [h])

/-- A realtime quote row, with the column names from the rename at
`streamlit_app.py:40-55`. -/
structure QuoteRow where
  code : String
  name : String
  latest_price : ℚ
  change_amount : ℚ
  change_percent : ℚ
  volume : ℚ
  amount : ℚ
  high : ℚ
  low : ℚ
  prev_close : ℚ
  turnover_rate : ℚ
  deriving Repr, DecidableEq

/-- A historical daily bar, with the column names from the rename at
`streamlit_app.py:80-92`.  `date` is modelled as a `Nat` (days are totally
ordered; `pd.to_datetime` only reinterprets the value). -/
structure HistRow where
  date : Nat
  openPrice : ℚ
  close : ℚ
  high : ℚ
  low : ℚ
  volume : ℚ
  amount : ℚ
  pct_change : ℚ
  change : ℚ
  turnover : ℚ
  deriving Repr, DecidableEq

/-- A row of the per-stock fund-flow table returned by
`ak.stock_individual_fund_flow`; the script only reads the two net-inflow
columns (`streamlit_app.py:280-281`). -/
structure FlowRow where
  mainNetInflow : ℚ
  retailNetInflow : ℚ
  deriving Repr, DecidableEq

/-- The external market-data provider (`akshare`).  Each field is one
provider endpoint; an `Except.error` models the call raising. -/
structure Provider where
  spot : Except String (List QuoteRow)
  hist : String → Nat → Except String (List HistRow)
  flow : String → Except String (List FlowRow)

/-- The notices and widgets the script emits, flattened in emission order. -/
inductive RenderItem where
  | header (s : String)
  | subheader (s : String)
  | errorBox (s : String)
  | warningBox (s : String)
  | infoBox (s : String)
  | quoteTable (rows : List QuoteRow)
  | candlestickChart (code : String) (rows : List HistRow)
  | metric (label : String) (value : ℚ)
  | detailTable (code : String) (rows : List HistRow)
  | separator
  | timeCaption (now : Nat)
  | caption (s : String)
  | button (s : String)
  deriving Repr, DecidableEq

/-- A data-shim invocation performed during a render pass (each one is a
provider call when the memoization cache is cold). -/
inductive ProviderCall where
  | spot
  | hist (code : String) (days : Nat)
  | flow (code : String)
  deriving Repr, DecidableEq

/-- `STOCK_MAP` (`streamlit_app.py:23-27`): display name to exchange code. -/
def STOCK_MAP : List (String × String) :=
  [("贵州茅台", "600519"), ("泸州老窖", "000568"), ("五粮液", "000858")]

/-- `STOCK_MAP[s]["code"]`; the multiselect only offers `STOCK_MAP` keys, so
the lookup always succeeds in the script. -/
def stockCode (stock_name : String) : String :=
  ((STOCK_MAP.lookup stock_name).getD "")

/-- `target_codes` (`streamlit_app.py:36`). -/
def target_codes : List String := STOCK_MAP.map (·.2)

/-! ### Rounding

`pandas.DataFrame.round` and Python's fixed-point format spec (`.1f`, `.2f`)
both round half to even. -/

/-- Round to the nearest integer, ties to even. -/
def roundHalfEven (x : ℚ) : ℤ :=
  if x - (⌊x⌋ : ℚ) < 1 / 2 then ⌊x⌋
  else if 1 / 2 < x - (⌊x⌋ : ℚ) then ⌊x⌋ + 1
  else if ⌊x⌋ % 2 = 0 then ⌊x⌋ else ⌊x⌋ + 1

/-- Round to `dp` decimal places, ties to even: models both
`Series.round(dp)` and the `f"{x:.{dp}f}"` format value. -/
def roundTo (dp : Nat) (x : ℚ) : ℚ :=
  (roundHalfEven (x * 10 ^ dp) : ℚ) / 10 ^ dp

/-- The "成交量" metric in the chart panel (`streamlit_app.py:231`):
`f"{volume/10000:.1f}万手"`. -/
def metricVolumeDisplay (volume : ℚ) : ℚ := roundTo 1 (volume / 10000)

/-- The "成交量" column of the detail table (`streamlit_app.py:248`):
`(volume / 10000).round(1)` + `"万手"`. -/
def detailVolumeDisplay (volume : ℚ) : ℚ := roundTo 1 (volume / 10000)

/-- Modelled from the spec: "volume in 万手 = raw volume / 10,000 rounded to
one decimal place".  A value `r` is the 万手 rendering of raw volume `v` iff
`r` is a multiple of one tenth and is within half of one tenth of
`v / 10000`. -/
def IsWanShouDisplay (v r : ℚ) : Prop :=
  ∃ k : ℤ, r = (k : ℚ) / 10 ∧ |v / 10000 - (k : ℚ) / 10| ≤ 1 / 20

/-! ### The data-access shim -/

/-- `get_realtime_quotes` (`streamlit_app.py:31-59`): fetch the spot table,
keep only the watch-list codes, rename columns; on any exception show
`st.error` and return an empty frame.  Result: (table, notices emitted). -/
def get_realtime_quotes (p : Provider) : List QuoteRow × List RenderItem :=
  match p.spot with
  | .ok df => (df.filter (fun r => target_codes.contains r.code), [])
  | .error e => ([], [.errorBox ("获取实时行情失败: " ++ e)])

/-- Stable insertion of a bar into a list already ascending by date: the new
bar goes after any bar with an equal or smaller date. -/
def insertByDate (r : HistRow) : List HistRow → List HistRow
  | [] => [r]
  | x :: xs => if r.date < x.date then r :: x :: xs else x :: insertByDate r xs

/-- Ascending stable sort by `date`, modelling `df.sort_values('date')`
(`streamlit_app.py:94`). -/
def sortByDate : List HistRow → List HistRow
  | [] => []
  | x :: xs => insertByDate x (sortByDate xs)

/-- `get_historical_data` (`streamlit_app.py:63-98`): fetch daily bars for
`stock_code`; on success rename columns and, if non-empty, sort ascending by
date; on any exception show `st.warning` and return an empty frame.
Result: (table, notices emitted). -/
def get_historical_data (p : Provider) (stock_code : String) (days : Nat) :
    List HistRow × List RenderItem :=
  match p.hist stock_code days with
  | .ok df => (if df.isEmpty then df else sortByDate df, [])
  | .error e =>
      ([], [.warningBox ("获取" ++ stock_code ++ "历史数据失败: " ++ e)])

/-- `get_money_flow` (`streamlit_app.py:102-108`): fetch the fund-flow table
and keep the first 10 rows; the bare `except:` returns an empty frame and
shows nothing.  Result: (table, notices emitted). -/
def get_money_flow (p : Provider) (stock_code : String) :
    List FlowRow × List RenderItem :=
  match p.flow stock_code with
  | .ok df => (df.take 10, [])
  | .error _ => ([], [])

/-! ### `iloc` and the day-over-day change -/

/-- `DataFrame.iloc[i]` with Python negative indexing; `none` models the
`IndexError` raised when the position is out of bounds. -/
def pyIloc {α : Type} (xs : List α) (i : ℤ) : Option α :=
  let j : ℤ := if i < 0 then (xs.length : ℤ) + i else i
  if 0 ≤ j then xs[j.toNat]? else none

/-- `change_pct` (`streamlit_app.py:227`):
`(iloc[-1].close - iloc[-2].close) / iloc[-2].close * 100`; `none` models the
uncaught `IndexError`. -/
def change_pct (hist_data : List HistRow) : Option ℚ := do
  let latest ← pyIloc hist_data (-1)
  let prev ← pyIloc hist_data (-2)
  pure ((latest.close - prev.close) / prev.close * 100)

/-! ### The render pass -/

/-- The sidebar widget state (`streamlit_app.py:111-123`). -/
structure Widgets where
  selected_stocks : List String
  analysis_days : Nat
  show_charts : Bool
  show_details : Bool
  deriving Repr, DecidableEq

/-- One stock's K-line expander (`streamlit_app.py:165-233`): chart, then the
four metrics.  `latest = hist_data.iloc[-1]` and the `iloc[-2]` inside the
day-over-day change can raise `IndexError`, which aborts the render. -/
def renderChartOne (p : Provider) (stock_name : String) (days : Nat) :
    Except String (List RenderItem × List ProviderCall) :=
  let code := stockCode stock_name
  let fetched := get_historical_data p code days
  let hist_data := fetched.1
  let notes := fetched.2
  if hist_data.isEmpty then
    .ok (notes, [.hist code days])
  else
    match pyIloc hist_data (-1) with
    | none => .error "IndexError"
    | some latest =>
      match change_pct hist_data with
      | none => .error "IndexError"
      | some cp =>
        .ok (notes ++
          [.candlestickChart code hist_data,
           .metric "最新价" (roundTo 2 latest.close),
           .metric "日涨跌" (roundTo 2 cp),
           .metric "成交量" (metricVolumeDisplay latest.volume),
           .metric "成交额" (roundTo 2 (latest.amount / 100000000))],
          [.hist code days])

/-- The K-line section (`streamlit_app.py:162-233`), one expander per
selected stock. -/
def renderCharts (p : Provider) (names : List String) (days : Nat) :
    Except String (List RenderItem × List ProviderCall) :=
  match names with
  | [] => .ok ([], [])
  | n :: rest => do
    let one ← renderChartOne p n days
    let restR ← renderCharts p rest days
    .ok (one.1 ++ restR.1, one.2 ++ restR.2)

/-- The column formatting of the detail table (`streamlit_app.py:246-249`). -/
def formatHist (df : List HistRow) : List HistRow :=
  df.map (fun r =>
    { r with
      pct_change := roundTo 2 (r.pct_change * 100)
      volume := detailVolumeDisplay r.volume
      amount := roundTo 3 (r.amount / 100000000) })

/-- One stock's detail expander (`streamlit_app.py:239-265`); always fetches
the last 10 days and skips the expander when the table is empty. -/
def renderDetailOne (p : Provider) (stock_name : String) :
    List RenderItem × List ProviderCall :=
  let code := stockCode stock_name
  let fetched := get_historical_data p code 10
  let hist_data := fetched.1
  let notes := fetched.2
  if hist_data.isEmpty then
    (notes, [.hist code 10])
  else
    (notes ++ [.detailTable code (formatHist hist_data)], [.hist code 10])

/-- The detail section (`streamlit_app.py:236-265`). -/
def renderDetails (p : Provider) (names : List String) :
    List RenderItem × List ProviderCall :=
  match names with
  | [] => ([], [])
  | n :: rest =>
    let one := renderDetailOne p n
    let restR := renderDetails p rest
    (one.1 ++ restR.1, one.2 ++ restR.2)

/-- One stock's fund-flow column (`streamlit_app.py:271-283`): when the table
is empty an `st.info` placeholder is shown instead of the two metrics. -/
def renderFlowOne (p : Provider) (stock_name : String) :
    List RenderItem × List ProviderCall :=
  let code := stockCode stock_name
  let notes := (get_money_flow p code).2
  match (get_money_flow p code).1 with
  | [] => ([.subheader stock_name] ++ notes ++
      [.infoBox "资金流向数据暂时不可用"], [.flow code])
  | latest_flow :: _ => ([.subheader stock_name] ++ notes ++
      [.metric "主力净流入" (roundTo 1 (latest_flow.mainNetInflow / 10000)),
       .metric "散户净流入" (roundTo 1 (latest_flow.retailNetInflow / 10000))],
      [.flow code])

/-- The fund-flow section (`streamlit_app.py:268-283`). -/
def renderFlows (p : Provider) (names : List String) :
    List RenderItem × List ProviderCall :=
  match names with
  | [] => ([], [])
  | n :: rest =>
    let one := renderFlowOne p n
    let restR := renderFlows p rest
    (one.1 ++ restR.1, one.2 ++ restR.2)

/-- The main page (`streamlit_app.py:126-289`).  With no selected stocks only
the `st.info` prompt is shown; with an empty realtime table only the
`st.warning`; otherwise the quote table and the three data sections. -/
def renderMain (p : Provider) (w : Widgets) :
    Except String (List RenderItem × List ProviderCall) :=
  match w.selected_stocks with
  | [] => .ok ([.infoBox "请在左侧选择要分析的股票"], [])
  | _ :: _ =>
    let realtime_data := (get_realtime_quotes p).1
    let notes1 := (get_realtime_quotes p).2
    if realtime_data.isEmpty then
      .ok ([.header "📊 实时行情"] ++ notes1 ++
        [.warningBox "无法获取实时行情数据，请稍后重试"], [.spot])
    else
      let selected_codes := w.selected_stocks.map stockCode
      let display_df := realtime_data.filter
        (fun r => selected_codes.contains r.code)
      do
        let charts ←
          if w.show_charts then do
            let c ← renderCharts p w.selected_stocks w.analysis_days
            .ok ([RenderItem.header "📈 K线走势图"] ++ c.1, c.2)
          else .ok ([], [])
        let details :=
          if w.show_details then
            let d := renderDetails p w.selected_stocks
            ([RenderItem.header "📋 详细数据"] ++ d.1, d.2)
          else ([], [])
        let flows := renderFlows p w.selected_stocks
        .ok ([.header "📊 实时行情"] ++ notes1 ++ [.quoteTable display_df] ++
          charts.1 ++ details.1 ++ [.header "💰 资金流向分析"] ++ flows.1,
          [.spot] ++ charts.2 ++ details.2 ++ flows.2)

/-- The footer (`streamlit_app.py:292-301`): separator, the
`datetime.now()` caption, the source caption and the refresh button. -/
def footerItems (now : Nat) : List RenderItem :=
  [.separator, .timeCaption now, .caption "数据来源: akshare",
   .button "🔄 刷新数据"]

/-- One full render pass of the script: the main page followed by the
footer.  `now` is the wall clock read by `datetime.now()` at render time. -/
def renderApp (p : Provider) (w : Widgets) (now : Nat) :
    Except String (List RenderItem × List ProviderCall) :=
  match renderMain p w with
  | .ok (items, calls) => .ok (items ++ footerItems now, calls)
  | .error e => .error e

/-! ### The memoization layer

Modelled from the spec: `st.cache_data(ttl=…)` is framework code, not part
of this repository.  The spec describes it as: repeated calls with identical
arguments within a fixed time window return the previously fetched result
rather than re-querying.  `cache_ttl_call` is that contract for one argument
tuple: the state is the cached (value, fetch-time) entry for that tuple, and
the `Bool` reports whether the underlying provider was queried. -/

/-- One memoized call: serve the cached value while its age is below `ttl`
seconds, otherwise query `fetch` and cache the result. -/
def cache_ttl_call {α : Type} (ttl : Nat) (fetch : Unit → α)
    (st : Option (α × Nat)) (now : Nat) : α × Option (α × Nat) × Bool :=
  match st with
  | some (v, t) =>
    if now - t < ttl then (v, some (v, t), false)
    else
      let v2 := fetch ()
      (v2, some (v2, now), true)
  | none =>
    let v2 := fetch ()
    (v2, some (v2, now), true)

/-- `@st.cache_data(ttl=60)` on `get_realtime_quotes`
(`streamlit_app.py:30`). -/
def get_realtime_quotes_cached (p : Provider)
    (st : Option ((List QuoteRow × List RenderItem) × Nat)) (now : Nat) :
    (List QuoteRow × List RenderItem) ×
      Option ((List QuoteRow × List RenderItem) × Nat) × Bool :=
  cache_ttl_call 60 (fun _ => get_realtime_quotes p) st now

/-- `@st.cache_data(ttl=300)` on `get_historical_data`
(`streamlit_app.py:62`); the state is the entry for one `(code, days)`. -/
def get_historical_data_cached (p : Provider) (code : String) (days : Nat)
    (st : Option ((List HistRow × List RenderItem) × Nat)) (now : Nat) :
    (List HistRow × List RenderItem) ×
      Option ((List HistRow × List RenderItem) × Nat) × Bool :=
  cache_ttl_call 300 (fun _ => get_historical_data p code days) st now

/-- `@st.cache_data(ttl=300)` on `get_money_flow`
(`streamlit_app.py:101`); the state is the entry for one `code`. -/
def get_money_flow_cached (p : Provider) (code : String)
    (st : Option ((List FlowRow × List RenderItem) × Nat)) (now : Nat) :
    (List FlowRow × List RenderItem) ×
      Option ((List FlowRow × List RenderItem) × Nat) × Bool :=
  cache_ttl_call 300 (fun _ => get_money_flow p code) st now

/-! ### Concrete example data (used to instantiate theorems) -/

/-- A minimal historical bar with the given date and close. -/
def mkBar (date : Nat) (close : ℚ) : HistRow :=
  ⟨date, 0, close, 0, 0, 0, 0, 0, 0, 0⟩

/-- A minimal realtime quote row with the given code and name. -/
def mkQuote (code name : String) : QuoteRow :=
  ⟨code, name, 1700, 1, 1, 20000, 300000000, 0, 0, 0, 0⟩

def histOneRow : List HistRow := [mkBar 1 10]

def histTwoRows : List HistRow := [mkBar 1 10, mkBar 2 11]

/-- A provider whose every endpoint raises. -/
def pAllFail : Provider where
  spot := .error "boom"
  hist := fun _ _ => .error "no data"
  flow := fun _ => .error "flow down"

/-- A provider whose historical endpoint returns a single bar. -/
def pOneRow : Provider where
  spot := .ok [mkQuote "600519" "贵州茅台"]
  hist := fun _ _ => .ok histOneRow
  flow := fun _ => .ok []

/-- A healthy provider: quotes for the whole watch-list, two bars of
history, one fund-flow row. -/
def pGood : Provider where
  spot := .ok [mkQuote "600519" "贵州茅台", mkQuote "000568" "泸州老窖",
               mkQuote "000858" "五粮液", mkQuote "999999" "其他"]
  hist := fun _ _ => .ok histTwoRows
  flow := fun _ => .ok [⟨12345, 678⟩]

/-- A provider whose historical endpoint returns bars out of date order. -/
def pUnsorted : Provider where
  spot := .ok []
  hist := fun _ _ => .ok [mkBar 5 11, mkBar 2 10, mkBar 9 12]
  flow := fun _ => .ok []

/-- A provider whose responses mention `000568` but never `600519`: quotes
only for `000568`, history and fund flow empty for every other code. -/
def pPartial : Provider where
  spot := .ok [mkQuote "000568" "泸州老窖"]
  hist := fun code _ => if code = "000568" then .ok histTwoRows else .ok []
  flow := fun code => if code = "000568" then .ok [⟨12345, 678⟩] else .ok []

/-! ## Helper lemmas -/

theorem abs_sub_roundHalfEven (x : ℚ) :
    |x - (roundHalfEven x : ℚ)| ≤ 1 / 2 := by
  have h0 : (⌊x⌋ : ℚ) ≤ x := Int.floor_le x
  have h1 : x < (⌊x⌋ : ℚ) + 1 := Int.lt_floor_add_one x
  rw [roundHalfEven, abs_le]
  split_ifs with hf hg hp
  · exact ⟨by linarith, by linarith⟩
  · push_cast
    exact ⟨by linarith, by linarith⟩
  · exact ⟨by linarith, by linarith⟩
  · push_cast
    exact ⟨by linarith, by linarith⟩

theorem pyIloc_neg_eq {α : Type} (xs : List α) (k : Nat) (hk : 0 < k)
    (hlen : k ≤ xs.length) :
    pyIloc xs (-(k : ℤ)) = xs[xs.length - k]? := by
  simp only [pyIloc]
  rw [if_pos (show (-(k : ℤ)) < 0 by omega)]
  rw [if_pos (show (0 : ℤ) ≤ (xs.length : ℤ) + -(k : ℤ) by omega)]
  congr 1
  omega

theorem pyIloc_neg_none {α : Type} (xs : List α) (k : Nat)
    (hlen : xs.length < k) :
    pyIloc xs (-(k : ℤ)) = none := by
  simp only [pyIloc]
  rw [if_pos (show (-(k : ℤ)) < 0 by omega)]
  rw [if_neg (show ¬ (0 : ℤ) ≤ (xs.length : ℤ) + -(k : ℤ) by omega)]

/-! ## Claims -/

/-- **C4.** For every non-negative raw volume value, every display of volume
in the "万手" unit — the chart-panel metric (`streamlit_app.py:231`) and the
detail-table column (`streamlit_app.py:248`) — equals the raw volume divided
by 10,000 rounded to one decimal place.  (The realtime table at
`streamlit_app.py:140` converts to "万", not "万手", and that column is not
among the ones shown at line 150.) -/
theorem volume_wanshou_display_eq (v : ℚ) (hv : 0 ≤ v) :
    metricVolumeDisplay v = detailVolumeDisplay v ∧
    IsWanShouDisplay v (metricVolumeDisplay v) ∧
    IsWanShouDisplay v (detailVolumeDisplay v) := by
  have hb := abs_sub_roundHalfEven (v / 10000 * 10 ^ 1)
  have key : IsWanShouDisplay v (roundTo 1 (v / 10000)) := by
    refine ⟨roundHalfEven (v / 10000 * 10 ^ 1), ?_, ?_⟩
    · rw [roundTo]
      norm_num
    · rw [abs_le] at hb ⊢
      norm_num at hb ⊢
      exact ⟨by linarith [hb.1], by linarith [hb.2]⟩
  exact ⟨rfl, key, key⟩

/-- Witness for C4 at raw volume 12345: both displays show 1.2 万手. -/
theorem volume_wanshou_display_eq_witness :
    (0 : ℚ) ≤ 12345 ∧
    (metricVolumeDisplay 12345 = detailVolumeDisplay 12345 ∧
     IsWanShouDisplay 12345 (metricVolumeDisplay 12345) ∧
     IsWanShouDisplay 12345 (detailVolumeDisplay 12345)) :=
  ⟨by norm_num, volume_wanshou_display_eq 12345 (by norm_num)⟩

/-- **C2.** In the chart panel the day-over-day percent change is computed
from the close at index -1 versus the close at index -2
(`streamlit_app.py:227`).  With at least 2 rows both accesses are in bounds
and the change is `(close[-1] - close[-2]) / close[-2] * 100`; with exactly 1
row the `iloc[-2]` access is out of bounds and the computation fails — the
chart expander is entered (the table is non-empty) and the render aborts
with `IndexError` rather than skipping the computation. -/
theorem change_pct_uses_last_two_closes (hist : List HistRow) :
    (2 ≤ hist.length →
      ∃ latest prev : HistRow,
        pyIloc hist (-1) = some latest ∧ pyIloc hist (-2) = some prev ∧
        change_pct hist =
          some ((latest.close - prev.close) / prev.close * 100)) ∧
    (hist.length = 1 →
      pyIloc hist (-2) = none ∧ change_pct hist = none) ∧
    (∀ (p : Provider) (stock_name : String) (days : Nat),
      (get_historical_data p (stockCode stock_name) days).1 = hist →
      hist.length = 1 →
      renderChartOne p stock_name days = Except.error "IndexError") := by
  refine ⟨?_, ?_, ?_⟩
  · intro h2
    have e1 : pyIloc hist (-1) = hist[hist.length - 1]? := by
      have := pyIloc_neg_eq hist 1 (by omega) (by omega)
      simpa using this
    have e2 : pyIloc hist (-2) = hist[hist.length - 2]? := by
      have := pyIloc_neg_eq hist 2 (by omega) (by omega)
      simpa using this
    rw [List.getElem?_eq_getElem (by omega)] at e1
    rw [List.getElem?_eq_getElem (by omega)] at e2
    refine ⟨_, _, e1, e2, ?_⟩
    simp [change_pct, e1, e2]
  · intro h1
    have e2 : pyIloc hist (-2) = none := by
      have := pyIloc_neg_none hist 2 (by omega)
      simpa using this
    refine ⟨e2, ?_⟩
    cases hl : pyIloc hist (-1) with
    | none => simp [change_pct, hl]
    | some a => simp [change_pct, hl, e2]
  · intro p stock_name days heq h1
    have e2 : pyIloc hist (-2) = none := by
      have := pyIloc_neg_none hist 2 (by omega)
      simpa using this
    have hcp : change_pct hist = none := by
      cases hl : pyIloc hist (-1) with
      | none => simp [change_pct, hl]
      | some a => simp [change_pct, hl, e2]
    have hne : hist.isEmpty = false := by
      cases hist with
      | nil => simp at h1
      | cons a l => simp
    have e1 : pyIloc hist (-1) = hist[hist.length - 1]? := by
      have := pyIloc_neg_eq hist 1 (by omega) (by omega)
      simpa using this
    rw [List.getElem?_eq_getElem (by omega)] at e1
    simp only [renderChartOne, heq, hne, Bool.false_eq_true, if_false, e1,
      hcp]

/-- Witness for C2: a 2-row table yields the -1 vs -2 computation; a 1-row
table makes `iloc[-2]` fail; the chart panel then aborts with `IndexError`
on a provider returning one bar. -/
theorem change_pct_uses_last_two_closes_witness :
    ((∃ latest prev : HistRow,
        pyIloc histTwoRows (-1) = some latest ∧
        pyIloc histTwoRows (-2) = some prev ∧
        change_pct histTwoRows =
          some ((latest.close - prev.close) / prev.close * 100)) ∧
     (pyIloc histOneRow (-2) = none ∧ change_pct histOneRow = none)) ∧
    renderChartOne pOneRow "贵州茅台" 30 = Except.error "IndexError" :=
  ⟨⟨(change_pct_uses_last_two_closes histTwoRows).1 (by decide),
    (change_pct_uses_last_two_closes histOneRow).2.1 rfl⟩,
   (change_pct_uses_last_two_closes histOneRow).2.2 pOneRow "贵州茅台" 30
     (by decide) rfl⟩

theorem mem_insertByDate {b r : HistRow} {l : List HistRow} :
    b ∈ insertByDate r l ↔ b = r ∨ b ∈ l := by
  induction l with
  | nil => simp [insertByDate]
  | cons x xs ih =>
    simp only [insertByDate]
    split_ifs with hlt
    · simp [List.mem_cons]
    · simp only [List.mem_cons, ih]
      tauto

theorem pairwise_insertByDate (r : HistRow) (l : List HistRow)
    (h : List.Pairwise (fun a b => a.date ≤ b.date) l) :
    List.Pairwise (fun a b => a.date ≤ b.date) (insertByDate r l) := by
  induction l with
  | nil => simp [insertByDate]
  | cons x xs ih =>
    simp only [insertByDate]
    rcases List.pairwise_cons.mp h with ⟨hx, hxs⟩
    split_ifs with hlt
    · refine List.pairwise_cons.mpr ⟨?_, h⟩
      intro b hb
      rcases List.mem_cons.mp hb with rfl | hb
      · omega
      · have := hx b hb
        omega
    · refine List.pairwise_cons.mpr ⟨?_, ih hxs⟩
      intro b hb
      rcases mem_insertByDate.mp hb with rfl | hb
      · omega
      · exact hx b hb

theorem pairwise_sortByDate (l : List HistRow) :
    List.Pairwise (fun a b => a.date ≤ b.date) (sortByDate l) := by
  induction l with
  | nil => simp [sortByDate]
  | cons x xs ih => exact pairwise_insertByDate x (sortByDate xs) ih

/-- **C7.** Every non-empty table returned by `get_historical_data` is
sorted ascending by its date column (`streamlit_app.py:93-95`). -/
theorem historical_data_sorted_by_date (p : Provider) (stock_code : String)
    (days : Nat) (hne : (get_historical_data p stock_code days).1 ≠ []) :
    List.Pairwise (fun a b => a.date ≤ b.date)
      (get_historical_data p stock_code days).1 := by
  unfold get_historical_data
  cases h : p.hist stock_code days with
  | error e => simp
  | ok df =>
    simp only
    split_ifs with hemp
    · cases df with
      | nil => simp
      | cons a l => simp at hemp
    · exact pairwise_sortByDate df

/-- Witness for C7: a provider returning two out-of-order bars yields a
non-empty table sorted ascending by date. -/
theorem historical_data_sorted_by_date_witness :
    (get_historical_data pUnsorted "600519" 30).1 ≠ [] ∧
    List.Pairwise (fun a b => a.date ≤ b.date)
      (get_historical_data pUnsorted "600519" 30).1 :=
  ⟨by decide,
   historical_data_sorted_by_date pUnsorted "600519" 30 (by decide)⟩

/-- **C8.** Every row returned by the no-argument realtime-quote fetch has a
code in the fixed watch-list {600519, 000568, 000858}
(`streamlit_app.py:36-37`): codes outside the watch-list never appear. -/
theorem realtime_codes_subset_watchlist (p : Provider) (r : QuoteRow)
    (hr : r ∈ (get_realtime_quotes p).1) :
    r.code ∈ ["600519", "000568", "000858"] := by
  unfold get_realtime_quotes at hr
  cases h : p.spot with
  | error e =>
    rw [h] at hr
    simp at hr
  | ok df =>
    rw [h] at hr
    simp only [List.mem_filter] at hr
    have hc := hr.2
    simpa [target_codes, STOCK_MAP] using hc

/-- Witness for C8: the provider `pGood` answers with a quote for `600519`,
which the fetch keeps and which lies in the watch-list. -/
theorem realtime_codes_subset_watchlist_witness :
    mkQuote "600519" "贵州茅台" ∈ (get_realtime_quotes pGood).1 ∧
    (mkQuote "600519" "贵州茅台").code ∈ ["600519", "000568", "000858"] :=
  ⟨by decide,
   realtime_codes_subset_watchlist pGood (mkQuote "600519" "贵州茅台")
     (by decide)⟩

/-- **C1, counterexample.** The money-flow fetch has a bare `except:`
(`streamlit_app.py:107-108`): when the provider raises, it returns the empty
table but emits **no** user-visible notice at all, contradicting the claim
that every failing external data call shows a warning notice. -/
theorem money_flow_error_emits_no_notice :
    pAllFail.flow "600519" = Except.error "flow down" ∧
    get_money_flow pAllFail "600519" = ([], []) := by
  exact ⟨rfl, rfl⟩

/-- **C1, amended.** For every external data call, if the provider call
raises, the call returns an empty table, never re-raises (each fetch is a
total function into a plain pair), and: the realtime fetch shows an
`st.error` notice, the historical fetch shows an `st.warning` notice, and
the money-flow fetch shows no notice at all. -/
theorem fetch_error_contract (p : Provider) (eq eh ef : String)
    (code : String) (days : Nat) (hq : p.spot = .error eq)
    (hh : p.hist code days = .error eh) (hf : p.flow code = .error ef) :
    get_realtime_quotes p =
      ([], [.errorBox ("获取实时行情失败: " ++ eq)]) ∧
    get_historical_data p code days =
      ([], [.warningBox ("获取" ++ code ++ "历史数据失败: " ++ eh)]) ∧
    get_money_flow p code = ([], []) := by
  unfold get_realtime_quotes get_historical_data get_money_flow
  rw [hq, hh, hf]
  exact ⟨rfl, rfl, rfl⟩

/-- Witness for amended C1 on a provider whose every endpoint raises. -/
theorem fetch_error_contract_witness :
    get_realtime_quotes pAllFail =
      ([], [.errorBox ("获取实时行情失败: " ++ "boom")]) ∧
    get_historical_data pAllFail "600519" 30 =
      ([], [.warningBox ("获取" ++ "600519" ++ "历史数据失败: " ++
        "no data")]) ∧
    get_money_flow pAllFail "600519" = ([], []) :=
  fetch_error_contract pAllFail "boom" "no data" "flow down" "600519" 30
    rfl rfl rfl

theorem cache_ttl_call_second_hit {α : Type} (ttl : Nat) (fetch : Unit → α)
    (t0 t1 : Nat) (h : t1 - t0 < ttl) :
    (cache_ttl_call ttl fetch (cache_ttl_call ttl fetch none t0).2.1 t1).1 =
      (cache_ttl_call ttl fetch none t0).1 ∧
    (cache_ttl_call ttl fetch (cache_ttl_call ttl fetch none t0).2.1 t1).2.2
      = false := by
  simp [cache_ttl_call, h]

/-- **C3.** Two calls of the same fetch function with identical arguments,
the first against a cold cache at time `t0` and the second at time `t1`
within the fetch's TTL window (60 s for `get_realtime_quotes`, 300 s for
`get_historical_data` and `get_money_flow`, `streamlit_app.py:30,62,101`),
give the second call the previously fetched result unchanged and issue no
second provider query. -/
theorem cached_fetch_within_ttl (p : Provider) (code : String) (days : Nat)
    (t0 t1 : Nat) :
    (t1 - t0 < 60 →
      (get_realtime_quotes_cached p
          (get_realtime_quotes_cached p none t0).2.1 t1).1 =
        (get_realtime_quotes_cached p none t0).1 ∧
      (get_realtime_quotes_cached p
          (get_realtime_quotes_cached p none t0).2.1 t1).2.2 = false) ∧
    (t1 - t0 < 300 →
      (get_historical_data_cached p code days
          (get_historical_data_cached p code days none t0).2.1 t1).1 =
        (get_historical_data_cached p code days none t0).1 ∧
      (get_historical_data_cached p code days
          (get_historical_data_cached p code days none t0).2.1 t1).2.2
        = false) ∧
    (t1 - t0 < 300 →
      (get_money_flow_cached p code
          (get_money_flow_cached p code none t0).2.1 t1).1 =
        (get_money_flow_cached p code none t0).1 ∧
      (get_money_flow_cached p code
          (get_money_flow_cached p code none t0).2.1 t1).2.2 = false) := by
  exact ⟨fun h60 => cache_ttl_call_second_hit 60 _ t0 t1 h60,
    fun h300 => cache_ttl_call_second_hit 300 _ t0 t1 h300,
    fun h300 => cache_ttl_call_second_hit 300 _ t0 t1 h300⟩

/-- Witness for C3: a realtime pair 30 s apart (inside its 60 s window) and
historical/money-flow pairs 100 s apart — a gap inside the 300 s window but
beyond 60 s, which only the longer TTL covers. -/
theorem cached_fetch_within_ttl_witness :
    ((get_realtime_quotes_cached pGood
        (get_realtime_quotes_cached pGood none 0).2.1 30).1 =
      (get_realtime_quotes_cached pGood none 0).1 ∧
     (get_realtime_quotes_cached pGood
        (get_realtime_quotes_cached pGood none 0).2.1 30).2.2 = false) ∧
    ((get_historical_data_cached pGood "600519" 30
        (get_historical_data_cached pGood "600519" 30 none 0).2.1 100).1 =
      (get_historical_data_cached pGood "600519" 30 none 0).1 ∧
     (get_historical_data_cached pGood "600519" 30
        (get_historical_data_cached pGood "600519" 30 none 0).2.1 100).2.2
        = false) ∧
    ((get_money_flow_cached pGood "600519"
        (get_money_flow_cached pGood "600519" none 0).2.1 100).1 =
      (get_money_flow_cached pGood "600519" none 0).1 ∧
     (get_money_flow_cached pGood "600519"
        (get_money_flow_cached pGood "600519" none 0).2.1 100).2.2
        = false) :=
  ⟨(cached_fetch_within_ttl pGood "600519" 30 0 30).1 (by norm_num),
   (cached_fetch_within_ttl pGood "600519" 30 0 100).2.1 (by norm_num),
   (cached_fetch_within_ttl pGood "600519" 30 0 100).2.2 (by norm_num)⟩

/-- **C5.** When no stocks are selected, the main page is exactly the
`st.info` prompt (`streamlit_app.py:289`) — no quote table, charts, detail
tables or money-flow panels — and no data-shim (hence provider) call is
made; the full render adds only the static footer. -/
theorem empty_selection_renders_info_only (p : Provider) (w : Widgets)
    (now : Nat) (h : w.selected_stocks = []) :
    renderMain p w = .ok ([.infoBox "请在左侧选择要分析的股票"], []) ∧
    renderApp p w now =
      .ok ([.infoBox "请在左侧选择要分析的股票"] ++ footerItems now,
        []) := by
  have h1 : renderMain p w =
      .ok ([.infoBox "请在左侧选择要分析的股票"], []) := by
    unfold renderMain
    rw [h]
  refine ⟨h1, ?_⟩
  unfold renderApp
  rw [h1]

/-- Witness for C5 with an empty selection against a failing provider. -/
theorem empty_selection_renders_info_only_witness :
    renderMain pAllFail ⟨[], 30, true, true⟩ =
      .ok ([.infoBox "请在左侧选择要分析的股票"], []) ∧
    renderApp pAllFail ⟨[], 30, true, true⟩ 0 =
      .ok ([.infoBox "请在左侧选择要分析的股票"] ++ footerItems 0, []) :=
  empty_selection_renders_info_only pAllFail ⟨[], 30, true, true⟩ 0 rfl

/-- **C10.** Whenever the realtime-quote fetch returns an empty table (in
particular on provider failure), the main page is just the realtime header,
the fetch's own notices and the `st.warning` (`streamlit_app.py:286`): the
K-line, detail and money-flow sections are all skipped and no
historical-bar or money-flow fetch is invoked — the only data-shim call is
the realtime one. -/
theorem empty_realtime_skips_main_area (p : Provider) (w : Widgets)
    (hsel : w.selected_stocks ≠ [])
    (hempty : (get_realtime_quotes p).1 = []) :
    renderMain p w =
      .ok ([.header "📊 实时行情"] ++ (get_realtime_quotes p).2 ++
        [.warningBox "无法获取实时行情数据，请稍后重试"], [.spot]) := by
  unfold renderMain
  cases hs : w.selected_stocks with
  | nil => exact absurd hs hsel
  | cons a l =>
    simp [hempty]

/-- Witness for C10: a raising realtime provider with one selected stock. -/
theorem empty_realtime_skips_main_area_witness :
    renderMain pAllFail ⟨["贵州茅台"], 30, true, true⟩ =
      .ok ([.header "📊 实时行情"] ++ (get_realtime_quotes pAllFail).2 ++
        [.warningBox "无法获取实时行情数据，请稍后重试"], [.spot]) :=
  empty_realtime_skips_main_area pAllFail ⟨["贵州茅台"], 30, true, true⟩
    (by decide) rfl

/-- Drop the footer's `datetime.now()` caption from a rendered item list. -/
def stripTimeCaptions (items : List RenderItem) : List RenderItem :=
  items.filter fun i =>
    match i with
    | .timeCaption _ => false
    | _ => true

/-- **C9, counterexample.** Two render passes with identical widget
selections and identical cache contents (same provider data, nothing
refetched) but different wall-clock instants produce different output: the
footer caption embeds `datetime.now()` (`streamlit_app.py:295`), so the
render is not a pure function of (selections, cache contents) alone. -/
theorem render_output_depends_on_clock :
    renderApp pAllFail ⟨[], 30, true, true⟩ 0 ≠
      renderApp pAllFail ⟨[], 30, true, true⟩ 1 := by
  decide

/-- **C9, amended.** Each render pass is a pure function of (widget
selections, cache contents, current wall-clock time), and the time enters
only through the footer's data-update-time caption: with that caption
removed, any two renders with identical selections and identical data are
identical, whatever the clock says. -/
theorem render_pure_up_to_time_caption (p : Provider) (w : Widgets)
    (t t' : Nat) :
    Except.map (fun r => (stripTimeCaptions r.1, r.2)) (renderApp p w t) =
      Except.map (fun r => (stripTimeCaptions r.1, r.2))
        (renderApp p w t') := by
  unfold renderApp
  cases renderMain p w with
  | error e => rfl
  | ok pr =>
    obtain ⟨items, calls⟩ := pr
    simp [Except.map, stripTimeCaptions, footerItems, List.filter_append]

/-- Is this rendered item an `st.warning` box? -/
def isWarning : RenderItem → Bool
  | .warningBox _ => true
  | _ => false

/-- **C6, counterexample.** Against `pPartial` the identifier `600519`
(贵州茅台) is absent from every provider response, yet the full main-page
render emits **no** warning at all (and does not fail): its chart and detail
expanders are silently skipped and its money-flow column shows an `st.info`
placeholder, contradicting the claim that a warning is shown for the missing
identifier. -/
theorem absent_identifier_shows_no_warning :
    (pPartial.hist "600519" 30 = .ok [] ∧
     pPartial.hist "600519" 10 = .ok [] ∧
     pPartial.flow "600519" = .ok [] ∧
     ((get_realtime_quotes pPartial).1.map QuoteRow.code).contains "600519"
       = false) ∧
    Option.map (fun r => r.1.any isWarning)
      (renderMain pPartial ⟨["贵州茅台", "泸州老窖"], 30, true, true⟩).toOption
      = some false := by
  decide

/-- **C6, amended.** For every selected identifier absent from the
provider's responses (no realtime row, empty historical table, empty
money-flow table): no quote-table row carries its code, its chart and detail
expanders render nothing, its money-flow column shows the informational
placeholder instead of metrics, and none of its sections fails — but no
warning is shown for it (warnings are only emitted when a provider call
raises). -/
theorem absent_identifier_handled (p : Provider) (stock_name : String)
    (days : Nat) (rows : List QuoteRow) (hs : p.spot = .ok rows)
    (habs : stockCode stock_name ∉ rows.map QuoteRow.code)
    (hh : p.hist (stockCode stock_name) days = .ok [])
    (hh10 : p.hist (stockCode stock_name) 10 = .ok [])
    (hf : p.flow (stockCode stock_name) = .ok []) :
    stockCode stock_name ∉ (get_realtime_quotes p).1.map QuoteRow.code ∧
    renderChartOne p stock_name days =
      .ok ([], [.hist (stockCode stock_name) days]) ∧
    renderDetailOne p stock_name = ([], [.hist (stockCode stock_name) 10]) ∧
    renderFlowOne p stock_name =
      ([.subheader stock_name, .infoBox "资金流向数据暂时不可用"],
        [.flow (stockCode stock_name)]) := by
  refine ⟨?_, ?_, ?_, ?_⟩
  · intro hmem
    unfold get_realtime_quotes at hmem
    rw [hs] at hmem
    simp only [List.mem_map] at hmem
    obtain ⟨r, hr, hcode⟩ := hmem
    exact habs (List.mem_map.mpr ⟨r, (List.mem_filter.mp hr).1, hcode⟩)
  · simp [renderChartOne, get_historical_data, hh]
  · simp [renderDetailOne, get_historical_data, hh10]
  · simp [renderFlowOne, get_money_flow, hf]

/-- Witness for amended C6: `600519` is absent from all of `pPartial`'s
responses; its sections are skipped, placeholdered and failure-free. -/
theorem absent_identifier_handled_witness :
    stockCode "贵州茅台" ∉
      (get_realtime_quotes pPartial).1.map QuoteRow.code ∧
    renderChartOne pPartial "贵州茅台" 30 =
      .ok ([], [.hist (stockCode "贵州茅台") 30]) ∧
    renderDetailOne pPartial "贵州茅台" =
      ([], [.hist (stockCode "贵州茅台") 10]) ∧
    renderFlowOne pPartial "贵州茅台" =
      ([.subheader "贵州茅台", .infoBox "资金流向数据暂时不可用"],
        [.flow (stockCode "贵州茅台")]) :=
  absent_identifier_handled pPartial "贵州茅台" 30
    [mkQuote "000568" "泸州老窖"] rfl (by decide) (by decide) (by decide)
    (by decide)

end StockApp
